import Mathlib

/-!
Verification of the surveymaster survey-builder core against its
natural-language specification.  The definitions below are a shallow
embedding of the TypeScript source:

- the question / survey / response data model (shared zod schema),
- the Form Builder mutations (client/src/components/survey/form-builder.tsx),
- the Renderer pagination / validation / submit path
  (client/src/components/auth/auth-guard-simple.tsx, SurveyPreview),
- the Response Aggregator and CSV export (survey-responses component),
- the local-storage persistence adapter (client/src/lib/storage-local.ts).

JavaScript numbers are modelled as Int (integer-valued throughout the
relevant code paths); JS objects used as maps are modelled as association
lists; fresh nanoid() values are passed in as explicit parameters.
-/

namespace SurveyMaster

/-- The closed set of question types from the shared schema
(`questionTypes` in the zod schema file). -/
inductive QuestionType where
  | text
  | textarea
  | multipleChoice
  | checkbox
  | rating
  | date
  | email
deriving DecidableEq, Repr

/-- The string literal each question type carries in the source
(used in the builder's default question text `New ${type} question`). -/
def QuestionType.str : QuestionType → String
  | .text => "text"
  | .textarea => "textarea"
  | .multipleChoice => "multiple-choice"
  | .checkbox => "checkbox"
  | .rating => "rating"
  | .date => "date"
  | .email => "email"

/-- Rating scale `{min, max, minLabel?, maxLabel?}` from the schema. -/
structure Scale where
  min : Int
  max : Int
  minLabel : Option String := none
  maxLabel : Option String := none
deriving DecidableEq, Repr

/-- One survey question, per the zod `questionSchema`
(validation and skipLogic are pass-through metadata never read by the
builder, renderer or aggregator, so they are omitted here). -/
structure Question where
  id : String
  type : QuestionType
  text : String
  helpText : Option String := none
  required : Bool
  order : Int
  options : Option (List String) := none
  scale : Option Scale := none
deriving DecidableEq, Repr

instance : Inhabited Question :=
  ⟨{ id := "", type := QuestionType.text, text := "", required := false, order := 0 }⟩

/-- Survey lifecycle status from the zod `surveySchema`. -/
inductive SurveyStatus where
  | draft
  | active
  | completed
  | archived
deriving DecidableEq, Repr

/-- Survey settings from the zod `surveySchema` (`startDate`/`endDate`
omitted: never read by the embedded code paths). -/
structure SurveySettings where
  allowAnonymous : Bool := true
  requireAuth : Bool := false
  multipleSubmissions : Bool := false
  showProgressBar : Bool := true
  submissionLimit : Option Int := none
deriving DecidableEq, Repr

/-- A survey document, per the zod `surveySchema`.  Timestamps are
modelled as integers (epoch milliseconds). -/
structure Survey where
  id : String
  title : String
  description : Option String := none
  createdBy : String
  createdAt : Int
  updatedAt : Int
  status : SurveyStatus
  questions : List Question
  settings : Option SurveySettings := none
  responseCount : Int
deriving DecidableEq, Repr

/-- An answer value as produced by the renderer's controls: a string
(text / textarea / email / date / multiple-choice), a string array
(checkbox) or a number (rating). -/
inductive AnswerValue where
  | str (s : String)
  | arr (l : List String)
  | num (n : Int)
deriving DecidableEq, Repr

/-- The `responses` object of a Response: JS object keyed by question id,
modelled as an association list. -/
abbrev AnswerMap := List (String × AnswerValue)

/-- `responses[qid]` — JS property lookup: the value at the first
matching key, `undefined` (none) when absent. -/
def lookupAnswer (rs : AnswerMap) (qid : String) : Option AnswerValue :=
  (rs.find? (fun p => p.1 = qid)).map Prod.snd

/- ### Form Builder (form-builder.tsx) -/

/-- The builder's component state: `title`, `description`, `questions`,
`selectedQuestionId`. -/
structure BuilderState where
  title : String
  description : String
  questions : List Question
  selectedQuestionId : Option String := none
deriving DecidableEq, Repr

/-- The question object `addQuestion` constructs before appending:
fresh id, default text, `required: false`, `order: questions.length + 1`,
then type-conditioned `options` / `scale` seeding. -/
def newQuestion (t : QuestionType) (freshId : String) (len : Nat) : Question :=
  let base : Question :=
    { id := freshId
      type := t
      text := "New " ++ t.str ++ " question"
      required := false
      order := (len : Int) + 1 }
  if t = QuestionType.multipleChoice ∨ t = QuestionType.checkbox then
    { base with options := some ["Option 1", "Option 2", "Option 3"] }
  else if t = QuestionType.rating then
    { base with scale := some { min := 1, max := 5, minLabel := some "Poor", maxLabel := some "Excellent" } }
  else
    base

/-- `addQuestion(type)`: append the new question and select it.
The `nanoid()` call is modelled by the explicit `freshId` parameter. -/
def addQuestion (st : BuilderState) (t : QuestionType) (freshId : String) : BuilderState :=
  { st with
      questions := st.questions ++ [newQuestion t freshId st.questions.length]
      selectedQuestionId := some freshId }

/-- A `Partial<Question>` updates object: `none` fields are absent from
the partial and hence left unchanged by the object spread. -/
structure QuestionUpdates where
  id : Option String := none
  text : Option String := none
  helpText : Option String := none
  required : Option Bool := none
  order : Option Int := none
  options : Option (List String) := none
  scale : Option Scale := none
deriving DecidableEq, Repr

/-- The object spread `{ ...q, ...updates }`. -/
def applyUpdates (q : Question) (u : QuestionUpdates) : Question :=
  { id := u.id.getD q.id
    type := q.type
    text := u.text.getD q.text
    helpText := (u.helpText.map some).getD q.helpText
    required := u.required.getD q.required
    order := u.order.getD q.order
    options := (u.options.map some).getD q.options
    scale := (u.scale.map some).getD q.scale }

/-- `updateQuestion(id, updates)`: merge into every question whose id
matches (a no-op when no question matches). -/
def updateQuestion (st : BuilderState) (qid : String) (u : QuestionUpdates) : BuilderState :=
  { st with questions := st.questions.map (fun q => if q.id = qid then applyUpdates q u else q) }

/-- `deleteQuestion(id)`: remove matching questions and clear the
selection. -/
def deleteQuestion (st : BuilderState) (qid : String) : BuilderState :=
  { st with
      questions := st.questions.filter (fun q => q.id ≠ qid)
      selectedQuestionId := none }

/-- The clone `duplicateQuestion` builds from the found question:
new id, `text + " (Copy)"`, `order: questions.length + 1`; every other
field (type, options, scale, ...) is copied by the spread. -/
def dupOf (q : Question) (freshId : String) (len : Nat) : Question :=
  { q with id := freshId, text := q.text ++ " (Copy)", order := (len : Int) + 1 }

/-- `duplicateQuestion(id)`: find the first question with the id and
append its clone to the end of the list; a no-op when the id is absent. -/
def duplicateQuestion (st : BuilderState) (qid : String) (freshId : String) : BuilderState :=
  match st.questions.find? (fun q => q.id = qid) with
  | none => st
  | some q => { st with questions := st.questions ++ [dupOf q freshId st.questions.length] }

/-- JS `String.prototype.trim()`: strip leading and trailing whitespace
(modelled over the character list so that it evaluates in the kernel). -/
def jsTrim (s : String) : String :=
  String.mk (((s.data.dropWhile Char.isWhitespace).reverse.dropWhile Char.isWhitespace).reverse)

/-- JS `String.prototype.toLowerCase()` (ASCII case mapping, modelled
over the character list so that it evaluates in the kernel). -/
def jsToLowerCase (s : String) : String :=
  String.mk (s.data.map Char.toLower)

/-- The survey data `handleSave` hands to the persistence mutation:
`{ title: title.trim(), description: description.trim(), questions }`. -/
structure SavedDraft where
  title : String
  description : String
  questions : List Question
deriving DecidableEq, Repr

/-- `handleSave`: blocked with a validation toast when the trimmed title
is empty, otherwise the draft is persisted verbatim — in particular the
`questions` list (and every `order` field in it) is passed through
unchanged. -/
def handleSave (st : BuilderState) : Option SavedDraft :=
  if jsTrim st.title = "" then none
  else some { title := jsTrim st.title, description := jsTrim st.description, questions := st.questions }

/-- One builder mutation, for reasoning about arbitrary edit sequences. -/
inductive BuilderOp where
  | add (t : QuestionType) (freshId : String)
  | update (qid : String) (u : QuestionUpdates)
  | delete (qid : String)
  | dup (qid : String) (freshId : String)
deriving DecidableEq, Repr

/-- Apply one builder mutation to the state. -/
def applyOp (st : BuilderState) : BuilderOp → BuilderState
  | .add t freshId => addQuestion st t freshId
  | .update qid u => updateQuestion st qid u
  | .delete qid => deleteQuestion st qid
  | .dup qid freshId => duplicateQuestion st qid freshId

/-- Apply a sequence of builder mutations, left to right. -/
def applyOps (st : BuilderState) (ops : List BuilderOp) : BuilderState :=
  ops.foldl applyOp st

/-- A fresh builder draft with the given title and no questions. -/
def builderInit (title : String) : BuilderState :=
  { title := title, description := "", questions := [] }

/- ### Form Renderer (auth-guard-simple.tsx, SurveyPreview) -/

/-- `const questionsPerPage = 3`. -/
def questionsPerPage : Nat := 3

/-- `Math.ceil(survey.questions.length / questionsPerPage)`. -/
def totalPages (survey : Survey) : Nat :=
  (survey.questions.length + questionsPerPage - 1) / questionsPerPage

/-- `survey.questions.slice(p * questionsPerPage, (p + 1) * questionsPerPage)`:
the questions shown on (zero-based) page `p`. -/
def currentQuestions (survey : Survey) (p : Nat) : List Question :=
  (survey.questions.drop (p * questionsPerPage)).take questionsPerPage

/-- `survey.settings?.showProgressBar`: optional chaining yields a falsy
`undefined` when `settings` is absent. -/
def showProgressBarFlag (survey : Survey) : Bool :=
  match survey.settings with
  | some s => s.showProgressBar
  | none => false

/-- `Math.round(100 * num / den)` for nonnegative rationals (`den > 0`):
round half up, computed as `⌊(200 num + den) / (2 den)⌋`. -/
def jsRoundPercent (num den : Nat) : Nat :=
  (200 * num + den) / (2 * den)

/-- The progress percentage displayed on page `p`:
`Math.round(((currentPage + 1) / totalPages) * 100)`, shown only when
`settings?.showProgressBar && totalPages > 1`. -/
def displayedProgress (survey : Survey) (p : Nat) : Option Nat :=
  if showProgressBarFlag survey && decide (1 < totalPages survey) then
    some (jsRoundPercent (p + 1) (totalPages survey))
  else
    none

/-- The response document `handleSubmit` persists
(`submittedAt: serverTimestamp()` is backend-assigned and omitted). -/
structure ResponseDoc where
  surveyId : String
  responses : AnswerMap
  isComplete : Bool
  completionTime : Int
  ipAddress : String
  userAgent : String
deriving DecidableEq, Repr

/-- `!responses[q.id] || (Array.isArray(responses[q.id]) && responses[q.id].length === 0)`:
a required answer counts as missing when its value is JS-falsy (absent
key, empty string, or the number 0) or is an empty array. -/
def answerMissing (rs : AnswerMap) (qid : String) : Bool :=
  match lookupAnswer rs qid with
  | none => true
  | some (AnswerValue.str s) => s = ""
  | some (AnswerValue.num n) => n = 0
  | some (AnswerValue.arr l) => l.isEmpty

/-- `requiredQuestions.filter(q => ...)`: the required questions whose
answers the submit gate counts as missing, in question-list order. -/
def missingRequired (survey : Survey) (rs : AnswerMap) : List Question :=
  (survey.questions.filter (fun q => q.required)).filter (fun q => answerMissing rs q.id)

/-- Outcome of the submit action: blocked with the alert's list of
missing-question texts (joined with ", " for display), or the persisted
response document. -/
inductive SubmitOutcome where
  | blocked (missingTexts : List String)
  | submitted (r : ResponseDoc)
deriving DecidableEq, Repr

/-- `handleSubmit`: validate the required questions; when any is missing
alert and return without persisting, otherwise build the response object
(`isComplete: true`, `completionTime: Date.now() - surveyStartTime`,
`ipAddress: 'hidden'`) and persist it.  `now` and `startTime` are epoch
milliseconds (`Date.now()` at submit and at first render). -/
def handleSubmit (survey : Survey) (rs : AnswerMap) (now startTime : Int) (ua : String) :
    SubmitOutcome :=
  let missing := missingRequired survey rs
  if missing.length > 0 then
    SubmitOutcome.blocked (missing.map (fun q => q.text))
  else
    SubmitOutcome.submitted
      { surveyId := survey.id
        responses := rs
        isComplete := true
        completionTime := now - startTime
        ipAddress := "hidden"
        userAgent := ua }

/-- The response persisted by a submit outcome, if any. -/
def persistedResponse : SubmitOutcome → Option ResponseDoc
  | SubmitOutcome.blocked _ => none
  | SubmitOutcome.submitted r => some r

/-- The Firestore collections the renderer's submit path touches:
`surveys` and `responses`. -/
structure FirestoreState where
  surveys : List Survey
  responses : List ResponseDoc
deriving DecidableEq, Repr

/-- The renderer's submit path against Firestore: on success
`addDoc(collection(db, 'responses'), responseData)` appends the response
document; no other document — in particular no survey document — is
written. -/
def firestoreSubmit (fs : FirestoreState) (survey : Survey) (rs : AnswerMap)
    (now startTime : Int) (ua : String) : FirestoreState :=
  match handleSubmit survey rs now startTime ua with
  | SubmitOutcome.blocked _ => fs
  | SubmitOutcome.submitted r => { fs with responses := fs.responses ++ [r] }

/- ### Response Aggregator and CSV export (survey-responses component) -/

/-- `responses.map(r => r.responses[question.id]).filter(a => a !== undefined && a !== null && a !== '')`:
the non-empty answers collected for one question. -/
def answersFor (rs : List AnswerMap) (qid : String) : List AnswerValue :=
  rs.filterMap (fun m =>
    match lookupAnswer m qid with
    | none => none
    | some (AnswerValue.str s) => if s = "" then none else some (AnswerValue.str s)
    | some a => some a)

/-- `answers.filter(a => typeof a === 'number')`: the numeric answers of
a rating question. -/
def ratingsOf (answers : List AnswerValue) : List Int :=
  answers.filterMap (fun a =>
    match a with
    | AnswerValue.num n => some n
    | _ => none)

/-- `Array.from({length: scale.max - scale.min + 1}, (_, i) => scale.min + i)`:
every integer of the scale range, in order. -/
def scaleValues (s : Scale) : List Int :=
  (List.range (s.max - s.min + 1).toNat).map (fun (i : Nat) => s.min + (i : Int))

/-- `ratings.filter(r => r === value).length`: the frequency of one
rating value. -/
def countRating (ratings : List Int) (v : Int) : Nat :=
  (ratings.filter (fun r => r = v)).length

/-- The frequency distribution the rating analysis renders: one
`(value, count)` bar per integer in the scale range. -/
def ratingFrequencies (s : Scale) (ratings : List Int) : List (Int × Nat) :=
  (scaleValues s).map (fun v => (v, countRating ratings v))

/-- `(ratings.reduce((sum, r) => sum + r, 0) / ratings.length).toFixed(1)`:
the average in tenths (`some 47` renders as "4.7"); `none` when there
are no numeric answers (the code renders "N/A").  `toFixed` rounds to
the nearest tenth, ties toward `+∞`. -/
def ratingAverageTenths (ratings : List Int) : Option Int :=
  if ratings.length = 0 then none
  else some (Int.fdiv (20 * ratings.sum + (ratings.length : Int)) (2 * (ratings.length : Int)))

/-- The CSV download filename:
``survey.title.replace(/[^a-z0-9]/gi, '_').toLowerCase() + '_responses.csv'``
— every non-alphanumeric character becomes an underscore. -/
def handleExportCSVFileName (title : String) : String :=
  jsToLowerCase (String.mk (title.data.map (fun c => if c.isAlphanum then c else '_')))
    ++ "_responses.csv"

/- ### Local-storage persistence adapter (storage-local.ts) -/

/-- A response record as stored by the local adapter (`saveResponse`
assigns `id` and `submittedAt`). -/
structure StoredResponse where
  id : String
  surveyId : String
  responses : AnswerMap
  isComplete : Bool
  completionTime : Option Int
  submittedAt : Int
deriving DecidableEq, Repr

/-- The response fields a caller passes to `saveResponse`
(`Omit<SurveyResponse, 'id' | 'submittedAt'>`). -/
structure PendingResponse where
  surveyId : String
  responses : AnswerMap
  isComplete : Bool
  completionTime : Option Int
deriving DecidableEq, Repr

/-- The two localStorage keys, as lists of records. -/
structure LocalStore where
  surveys : List Survey
  responses : List StoredResponse
deriving DecidableEq, Repr

/-- `surveys.find(s => s.id === surveyId)?.responseCount`: the stored
response counter of a survey, `none` when the survey is absent. -/
def responseCountOf (l : List Survey) (sid : String) : Option Int :=
  (l.find? (fun s => s.id = sid)).map (fun s => s.responseCount)

/-- `updateSurvey`: replace the record at the first index whose id
matches (`findIndex` + assignment); the source throws when the id is
absent, which `incrementResponseCount` rules out by checking first. -/
def updateFirst (l : List Survey) (sid : String) (f : Survey → Survey) : List Survey :=
  match l with
  | [] => []
  | s :: rest => if s.id = sid then f s :: rest else s :: updateFirst rest sid f

/-- `incrementResponseCount(surveyId)`: read the survey, then
`updateSurvey(surveyId, { responseCount: (survey.responseCount || 0) + 1 })`
(also refreshing `updatedAt`); a no-op when the survey is absent. -/
def incrementResponseCount (st : LocalStore) (sid : String) (now : Int) : LocalStore :=
  match st.surveys.find? (fun s => s.id = sid) with
  | none => st
  | some s =>
      { st with
          surveys := updateFirst st.surveys sid
            (fun s0 => { s0 with responseCount := s.responseCount + 1, updatedAt := now }) }

/-- `saveResponse`: append the new response record (fresh `id`,
`submittedAt` now), then increment the owning survey's response count. -/
def saveResponse (st : LocalStore) (pr : PendingResponse) (freshId : String) (now : Int) :
    LocalStore × StoredResponse :=
  let newResponse : StoredResponse :=
    { id := freshId
      surveyId := pr.surveyId
      responses := pr.responses
      isComplete := pr.isComplete
      completionTime := pr.completionTime
      submittedAt := now }
  (incrementResponseCount { st with responses := st.responses ++ [newResponse] } pr.surveyId now,
   newResponse)

/-- `k` successive `saveResponse` calls for the same pending response,
with fresh ids and timestamps supplied by `ids` and `times`. -/
def saveResponsesN (ids : Nat → String) (times : Nat → Int) (st : LocalStore)
    (pr : PendingResponse) : Nat → LocalStore
  | 0 => st
  | k + 1 => (saveResponse (saveResponsesN ids times st pr k) pr (ids k) (times k)).1

/- ### Spec-side comparison definitions and concrete fixtures -/

/-- The spec's notion of a missing/empty answer — "missing key, empty
string, or empty array" — kept separate from the code's `answerMissing`
so the two can be compared. -/
def specEmptyAnswer (rs : AnswerMap) (qid : String) : Bool :=
  match lookupAnswer rs qid with
  | none => true
  | some (AnswerValue.str s) => s = ""
  | some (AnswerValue.arr l) => l.isEmpty
  | some (AnswerValue.num _) => false

/-- The spec's slug rule as amended: each non-alphanumeric character of
the title becomes an underscore, alphanumerics are lower-cased. -/
def slugAmended (title : String) : String :=
  String.mk (title.data.map (fun c => if c.isAlphanum then Char.toLower c else '_'))

/-- Whether a submit outcome was blocked by required-field validation. -/
def isBlocked : SubmitOutcome → Bool
  | SubmitOutcome.blocked _ => true
  | SubmitOutcome.submitted _ => false

/-- Fixture: a survey with one required rating question on scale -2..2
(such a scale is reachable in the builder's properties panel). -/
def c4Survey : Survey :=
  { id := "s1", title := "T", createdBy := "u", createdAt := 0, updatedAt := 0
    status := SurveyStatus.active
    questions := [{ id := "r1", type := QuestionType.rating, text := "Rate us"
                    required := true, order := 1
                    scale := some { min := -2, max := 2 } }]
    responseCount := 0 }

/-- Fixture: the respondent pressed the rating button `0`. -/
def c4Answers : AnswerMap := [("r1", AnswerValue.num 0)]

/-- Fixture: a survey with no questions (so submission always passes
validation). -/
def c5Survey : Survey :=
  { id := "s1", title := "T", createdBy := "u", createdAt := 0, updatedAt := 0
    status := SurveyStatus.active, questions := [], responseCount := 0 }

/-- Fixture: the Firestore collections holding one survey with
`responseCount = 0` and no responses. -/
def c9FsState : FirestoreState := { surveys := [c5Survey], responses := [] }

/-- Fixture: the edit sequence add "a", add "b", delete "a", add "c" —
after it the two remaining questions both carry `order = 2`. -/
def c1Ops : List BuilderOp :=
  [BuilderOp.add QuestionType.text "a", BuilderOp.add QuestionType.text "b",
   BuilderOp.delete "a", BuilderOp.add QuestionType.text "c"]

/-- Fixture: the respondent pressed the rating button `2`. -/
def c4AnswersOk : AnswerMap := [("r1", AnswerValue.num 2)]

/-- Fixture: an order-safe edit sequence — add "a", duplicate it as "b",
then edit the text of "a". -/
def c1SafeOps : List BuilderOp :=
  [BuilderOp.add QuestionType.text "a", BuilderOp.dup "a" "b",
   BuilderOp.update "a" { text := some "edited" }]

/-- Fixture: a rating question with id "a". -/
def c3Question : Question :=
  { id := "a", type := QuestionType.rating, text := "Rate us", required := false
    order := 1, scale := some { min := 1, max := 5 } }

/-- Fixture: a one-question draft holding `c3Question`. -/
def c3State : BuilderState :=
  { title := "T", description := "", questions := [c3Question] }

/- ### Helper lemmas about the builder's new-question construction -/

lemma newQuestion_id (t : QuestionType) (fid : String) (len : Nat) :
    (newQuestion t fid len).id = fid := by
  cases t <;> rfl

lemma newQuestion_required (t : QuestionType) (fid : String) (len : Nat) :
    (newQuestion t fid len).required = false := by
  cases t <;> rfl

lemma newQuestion_order (t : QuestionType) (fid : String) (len : Nat) :
    (newQuestion t fid len).order = (len : Int) + 1 := by
  cases t <;> rfl

lemma newQuestion_text (t : QuestionType) (fid : String) (len : Nat) :
    (newQuestion t fid len).text = "New " ++ t.str ++ " question" := by
  cases t <;> rfl

/- ### C2 -/

/-- C2: the claim that `addQuestion` seeds two options and sets
`order = current list length` is false on the code: adding a
multiple-choice question to an empty draft yields `order = 1` (not 0)
and three seeded options (not two). -/
theorem C2_counterexample :
    ((addQuestion (builderInit "T") QuestionType.multipleChoice "q1").questions.map
        (fun q => (q.order, (q.options.getD []).length))) = [(1, 3)] ∧
    ((1 : Int), (3 : Nat)) ≠ ((0 : Int), (2 : Nat)) := by
  decide

/-- C2 (amended): `addQuestion(t)` appends exactly one new question with
the supplied fresh id (keeping the id list duplicate-free), default text
`"New " ++ t ++ " question"`, `required = false` and
`order = current list length + 1`; choice types seed three default
options and rating seeds scale 1..5 with labels Poor/Excellent. -/
theorem C2_addQuestion_spec (st : BuilderState) (t : QuestionType) (fid : String)
    (hfresh : fid ∉ st.questions.map Question.id)
    (hnd : (st.questions.map Question.id).Nodup) :
    (addQuestion st t fid).questions = st.questions ++ [newQuestion t fid st.questions.length] ∧
    (newQuestion t fid st.questions.length).id = fid ∧
    (newQuestion t fid st.questions.length).required = false ∧
    (newQuestion t fid st.questions.length).order = (st.questions.length : Int) + 1 ∧
    (newQuestion t fid st.questions.length).text = "New " ++ t.str ++ " question" ∧
    ((t = QuestionType.multipleChoice ∨ t = QuestionType.checkbox) →
      (newQuestion t fid st.questions.length).options
        = some ["Option 1", "Option 2", "Option 3"]) ∧
    (t = QuestionType.rating →
      (newQuestion t fid st.questions.length).scale
        = some { min := 1, max := 5, minLabel := some "Poor", maxLabel := some "Excellent" }) ∧
    ((addQuestion st t fid).questions.map Question.id).Nodup := by
  refine ⟨rfl, newQuestion_id .., newQuestion_required .., newQuestion_order ..,
    newQuestion_text .., ?_, ?_, ?_⟩
  · rintro (rfl | rfl) <;> rfl
  · rintro rfl; rfl
  · have hmap : (addQuestion st t fid).questions.map Question.id
        = st.questions.map Question.id ++ [fid] := by
      simp [addQuestion, newQuestion_id]
    rw [hmap]
    simp [List.nodup_append, hnd, hfresh]

/-- C2 witness: the amended statement at a concrete input (adding a
rating question to a fresh one-question draft). -/
theorem C2_witness :
    (addQuestion (builderInit "T") QuestionType.rating "q9").questions
        = (builderInit "T").questions ++ [newQuestion QuestionType.rating "q9" (builderInit "T").questions.length] ∧
    (newQuestion QuestionType.rating "q9" (builderInit "T").questions.length).id = "q9" ∧
    (newQuestion QuestionType.rating "q9" (builderInit "T").questions.length).required = false ∧
    (newQuestion QuestionType.rating "q9" (builderInit "T").questions.length).order
        = ((builderInit "T").questions.length : Int) + 1 ∧
    (newQuestion QuestionType.rating "q9" (builderInit "T").questions.length).text
        = "New " ++ QuestionType.rating.str ++ " question" ∧
    ((QuestionType.rating = QuestionType.multipleChoice ∨ QuestionType.rating = QuestionType.checkbox) →
      (newQuestion QuestionType.rating "q9" (builderInit "T").questions.length).options
        = some ["Option 1", "Option 2", "Option 3"]) ∧
    (QuestionType.rating = QuestionType.rating →
      (newQuestion QuestionType.rating "q9" (builderInit "T").questions.length).scale
        = some { min := 1, max := 5, minLabel := some "Poor", maxLabel := some "Excellent" }) ∧
    ((addQuestion (builderInit "T") QuestionType.rating "q9").questions.map Question.id).Nodup :=
  C2_addQuestion_spec (builderInit "T") QuestionType.rating "q9" (by decide) (by decide)

/- ### C3 -/

/-- C3: `duplicateQuestion(id)` appends to the end of the list a clone
with the supplied fresh id (different from the original's), identical
type / options / scale, text `original ++ " (Copy)"`, leaving every
existing question unchanged. -/
theorem C3_duplicateQuestion_spec (st : BuilderState) (qid fid : String) (q : Question)
    (hfind : st.questions.find? (fun q2 => q2.id = qid) = some q)
    (hfresh : fid ≠ q.id) :
    (duplicateQuestion st qid fid).questions
        = st.questions ++ [dupOf q fid st.questions.length] ∧
    (dupOf q fid st.questions.length).id ≠ q.id ∧
    (dupOf q fid st.questions.length).type = q.type ∧
    (dupOf q fid st.questions.length).options = q.options ∧
    (dupOf q fid st.questions.length).scale = q.scale ∧
    (dupOf q fid st.questions.length).text = q.text ++ " (Copy)" := by
  refine ⟨?_, ?_, rfl, rfl, rfl, rfl⟩
  · simp [duplicateQuestion, hfind]
  · simpa [dupOf] using hfresh

/-- C3 witness: duplicating the only question of a one-question draft. -/
theorem C3_witness :
    (duplicateQuestion c3State "a" "b").questions
        = c3State.questions ++ [dupOf c3Question "b" c3State.questions.length] ∧
    (dupOf c3Question "b" c3State.questions.length).id ≠ c3Question.id ∧
    (dupOf c3Question "b" c3State.questions.length).type = c3Question.type ∧
    (dupOf c3Question "b" c3State.questions.length).options = c3Question.options ∧
    (dupOf c3Question "b" c3State.questions.length).scale = c3Question.scale ∧
    (dupOf c3Question "b" c3State.questions.length).text = c3Question.text ++ " (Copy)" :=
  C3_duplicateQuestion_spec c3State "a" "b" c3Question (by decide) (by decide)

/- ### C5 -/

/-- C5: the persisted `completionTime` is the raw `Date.now()`
difference — milliseconds, not seconds.  For a survey rendered at epoch
millisecond 0 and submitted at 120000 (two minutes later) the stored
value is 120000 where the schema's documented unit (seconds) requires
120. -/
theorem C5_completionTime_milliseconds :
    (persistedResponse (handleSubmit c5Survey [] 120000 0 "ua")).map
        (fun r => r.completionTime) = some 120000 ∧ (120000 : Int) ≠ 120 := by
  decide

/- ### C8 -/

/-- C8: the claim's filename for "Q1 Check-In!" is wrong: the code
replaces each non-alphanumeric character with an underscore instead of
stripping it, giving `q1_check_in__responses.csv`, not
`q1_checkin_responses.csv`. -/
theorem C8_counterexample :
    handleExportCSVFileName "Q1 Check-In!" = "q1_check_in__responses.csv" ∧
    handleExportCSVFileName "Q1 Check-In!" ≠ "q1_checkin_responses.csv" := by
  decide

/-- C8 (amended): the CSV export filename is the survey title with every
non-alphanumeric character replaced by an underscore and alphanumerics
lower-cased, followed by `_responses.csv`; in particular "Q1 Check-In!"
exports to `q1_check_in__responses.csv`. -/
theorem C8_export_filename (title : String) :
    handleExportCSVFileName title = slugAmended title ++ "_responses.csv" ∧
    handleExportCSVFileName "Q1 Check-In!" = "q1_check_in__responses.csv" := by
  refine ⟨?_, by decide⟩
  unfold handleExportCSVFileName jsToLowerCase slugAmended
  congr 1
  rw [List.map_map]
  congr 1
  refine List.map_congr_left ?_
  intro c _
  by_cases h : c.isAlphanum
  · simp [Function.comp, h]
  · simp [Function.comp, h]

/-- C8 witness: the amended statement at a concrete title. -/
theorem C8_witness :
    handleExportCSVFileName "A b" = slugAmended "A b" ++ "_responses.csv" ∧
    handleExportCSVFileName "Q1 Check-In!" = "q1_check_in__responses.csv" :=
  C8_export_filename "A b"

/- ### C10 -/

/-- C10: every response the renderer's submit path persists has
`isComplete = true`; the blocked branch persists nothing, so a partial
response is unreachable through this path. -/
theorem C10_persisted_isComplete (survey : Survey) (rs : AnswerMap)
    (now startTime : Int) (ua : String) :
    (persistedResponse (handleSubmit survey rs now startTime ua)).all
        (fun r => r.isComplete) = true := by
  unfold handleSubmit
  by_cases h : 0 < (missingRequired survey rs).length
  · simp [h, persistedResponse]
  · simp [h, persistedResponse]

/-- C10 witness: the property at a concrete survey and answer map. -/
theorem C10_witness :
    (persistedResponse (handleSubmit c4Survey c4Answers 7 2 "ua")).all
        (fun r => r.isComplete) = true :=
  C10_persisted_isComplete c4Survey c4Answers 7 2 "ua"

/- ### C1: order bookkeeping across builder mutations -/

/-- The invariant the builder actually maintains: each question's
`order` equals its one-based position in the list. -/
def ordersOneBased (qs : List Question) : Prop :=
  ∀ i (h : i < qs.length), (qs[i]).order = (i : Int) + 1

/-- The mutations that preserve `ordersOneBased`: everything except
`deleteQuestion` and an `updateQuestion` that overwrites `order`. -/
def orderSafeOp : BuilderOp → Bool
  | BuilderOp.delete _ => false
  | BuilderOp.update _ u => u.order.isNone
  | BuilderOp.add _ _ => true
  | BuilderOp.dup _ _ => true

lemma ordersOneBased_append (qs : List Question) (q : Question)
    (h : ordersOneBased qs) (hq : q.order = (qs.length : Int) + 1) :
    ordersOneBased (qs ++ [q]) := by
  intro i hi
  have hlen : i < qs.length + 1 := by simpa using hi
  rcases Nat.lt_or_ge i qs.length with hlt | hge
  · have hg : (qs ++ [q])[i] = qs[i] := List.getElem_append_left hlt
    rw [hg]
    exact h i hlt
  · have hei : i = qs.length := by omega
    have hg : (qs ++ [q])[i] = q := by
      subst hei
      simp
    rw [hg, hq, hei]

lemma ordersOneBased_update (qs : List Question) (qid : String) (u : QuestionUpdates)
    (hu : u.order = none) (h : ordersOneBased qs) :
    ordersOneBased (qs.map (fun q => if q.id = qid then applyUpdates q u else q)) := by
  intro i hi
  have hlen : i < qs.length := by simpa using hi
  have hg : (qs.map (fun q => if q.id = qid then applyUpdates q u else q))[i]
      = (fun q => if q.id = qid then applyUpdates q u else q) (qs[i]) :=
    List.getElem_map _
  rw [hg]
  by_cases hq : (qs[i]).id = qid
  · simp [hq, applyUpdates, hu]
    exact h i hlen
  · simp [hq]
    exact h i hlen

lemma ordersOneBased_applyOp (st : BuilderState) (op : BuilderOp)
    (hop : orderSafeOp op = true) (h : ordersOneBased st.questions) :
    ordersOneBased (applyOp st op).questions := by
  cases op with
  | add t fid =>
      exact ordersOneBased_append st.questions _ h (newQuestion_order ..)
  | update qid u =>
      have hu : u.order = none := Option.isNone_iff_eq_none.mp (by simpa [orderSafeOp] using hop)
      exact ordersOneBased_update st.questions qid u hu h
  | delete qid =>
      simp [orderSafeOp] at hop
  | dup qid fid =>
      show ordersOneBased (duplicateQuestion st qid fid).questions
      unfold duplicateQuestion
      cases hfind : st.questions.find? (fun q => q.id = qid) with
      | none => simpa using h
      | some q =>
          simp only []
          exact ordersOneBased_append st.questions _ h rfl

lemma ordersOneBased_applyOps (ops : List BuilderOp) (hops : ops.all orderSafeOp = true) :
    ∀ st : BuilderState, ordersOneBased st.questions →
      ordersOneBased (applyOps st ops).questions := by
  induction ops with
  | nil =>
      intro st h0
      simpa [applyOps] using h0
  | cons op ops ih =>
      intro st h0
      rw [List.all_cons, Bool.and_eq_true] at hops
      have hstep := ordersOneBased_applyOp st op hops.1 h0
      simpa [applyOps] using ih hops.2 (applyOp st op) hstep

/-- C1: the claimed invariant is false on the code.  A single
`addQuestion` on an empty draft already gives `order = 1` at index 0,
and the sequence add "a", add "b", delete "a", add "c" followed by
`handleSave` persists two questions that both carry `order = 2` —
`order` is neither the list index nor unique, and save does not
renumber. -/
theorem C1_counterexample :
    ((handleSave (applyOps (builderInit "T") c1Ops)).map
        (fun d => d.questions.map Question.order)) = some [2, 2] ∧
    ¬ ([(2 : Int), 2].Nodup) ∧
    ((applyOps (builderInit "T") [BuilderOp.add QuestionType.text "a"]).questions.map
        Question.order) = [1] ∧ (1 : Int) ≠ 0 := by
  decide

/-- C1 (amended): across every sequence of builder mutations that
avoids `deleteQuestion` and order-overwriting `updateQuestion`s, every
question's `order` equals its ONE-based position (index + 1) in the
`questions` list — hence is unique within the survey — and `handleSave`
persists the list (and its `order` values) unchanged, so the same holds
after save.  `deleteQuestion` breaks the invariant (see the
counterexample) and save does not restore it. -/
theorem C1_order_invariant (ops : List BuilderOp) (st : BuilderState)
    (hops : ops.all orderSafeOp = true) (h0 : ordersOneBased st.questions) :
    ordersOneBased (applyOps st ops).questions ∧
    ∀ d, handleSave (applyOps st ops) = some d →
      d.questions = (applyOps st ops).questions ∧
      ordersOneBased d.questions ∧
      ∀ i j (hi : i < d.questions.length) (hj : j < d.questions.length),
        i ≠ j → (d.questions[i]).order ≠ (d.questions[j]).order := by
  have hmain := ordersOneBased_applyOps ops hops st h0
  refine ⟨hmain, ?_⟩
  intro d hd
  have hq : d.questions = (applyOps st ops).questions := by
    unfold handleSave at hd
    by_cases ht : jsTrim (applyOps st ops).title = ""
    · simp [ht] at hd
    · simp [ht] at hd
      rw [← hd]
  have hone : ordersOneBased d.questions := by
    rw [hq]
    exact hmain
  refine ⟨hq, hone, ?_⟩
  intro i j hi hj hij
  rw [hone i hi, hone j hj]
  omega

/-- C1 witness: the amended statement over the concrete safe sequence
add "a", duplicate "a" → "b", edit the text of "a". -/
theorem C1_witness :
    ordersOneBased (applyOps (builderInit "T") c1SafeOps).questions ∧
    ∀ d, handleSave (applyOps (builderInit "T") c1SafeOps) = some d →
      d.questions = (applyOps (builderInit "T") c1SafeOps).questions ∧
      ordersOneBased d.questions ∧
      ∀ i j (hi : i < d.questions.length) (hj : j < d.questions.length),
        i ≠ j → (d.questions[i]).order ≠ (d.questions[j]).order :=
  C1_order_invariant c1SafeOps (builderInit "T") (by decide)
    (fun i hi => absurd hi (by simp [builderInit]))

/- ### C4: the required-answer submission gate -/

/-- C4: the claimed "missing/empty (missing key, empty string, or empty
array)" test is not the code's test: a required rating question answered
with the number 0 (reachable with a scale whose minimum is negative) is
JS-falsy, so submission is blocked even though the answer is present and
non-empty. -/
theorem C4_counterexample :
    isBlocked (handleSubmit c4Survey c4Answers 0 0 "ua") = true ∧
    (c4Survey.questions.filter (fun q => q.required)).all
        (fun q => !(specEmptyAnswer c4Answers q.id)) = true := by
  decide

/-- C4 (amended): submission is blocked iff some required question's
answer is JS-falsy (missing key, empty string, or the number 0) or an
empty array; the blocked alert lists exactly those questions' texts and
nothing is persisted; otherwise the persisted response carries the
captured answers with `isComplete = true`. -/
theorem C4_submit_gate (survey : Survey) (rs : AnswerMap) (now startTime : Int) (ua : String) :
    (match handleSubmit survey rs now startTime ua with
      | SubmitOutcome.blocked texts =>
          missingRequired survey rs ≠ [] ∧
          texts = (missingRequired survey rs).map (fun q => q.text) ∧
          ∀ fs : FirestoreState,
            (firestoreSubmit fs survey rs now startTime ua).responses = fs.responses
      | SubmitOutcome.submitted r =>
          missingRequired survey rs = [] ∧ r.isComplete = true ∧
          r.responses = rs ∧ r.surveyId = survey.id ∧
          ∀ fs : FirestoreState,
            (firestoreSubmit fs survey rs now startTime ua).responses = fs.responses ++ [r]) := by
  unfold firestoreSubmit handleSubmit
  by_cases h : 0 < (missingRequired survey rs).length
  · simp [h]
    exact List.ne_nil_of_length_pos h
  · have hnil : missingRequired survey rs = [] := by
      cases hmr : missingRequired survey rs with
      | nil => rfl
      | cons a l => exact absurd (by simp [hmr]) h
    simp [h, hnil]

/-- C4 witness: the amended statement at the concrete fixture, with the
required rating question answered by the button 2. -/
theorem C4_witness :
    (match handleSubmit c4Survey c4AnswersOk 9 4 "ua" with
      | SubmitOutcome.blocked texts =>
          missingRequired c4Survey c4AnswersOk ≠ [] ∧
          texts = (missingRequired c4Survey c4AnswersOk).map (fun q => q.text) ∧
          ∀ fs : FirestoreState,
            (firestoreSubmit fs c4Survey c4AnswersOk 9 4 "ua").responses = fs.responses
      | SubmitOutcome.submitted r =>
          missingRequired c4Survey c4AnswersOk = [] ∧ r.isComplete = true ∧
          r.responses = c4AnswersOk ∧ r.surveyId = c4Survey.id ∧
          ∀ fs : FirestoreState,
            (firestoreSubmit fs c4Survey c4AnswersOk 9 4 "ua").responses = fs.responses ++ [r]) :=
  C4_submit_gate c4Survey c4AnswersOk 9 4 "ua"

/- ### C6: pagination and progress -/

/-- Fixture: a minimal text question for pagination tests. -/
def c6Q (n : String) : Question :=
  { id := n, type := QuestionType.text, text := n, required := false, order := 0 }

/-- Fixture: a four-question survey with default settings (two pages). -/
def c6Survey : Survey :=
  { id := "s6", title := "T", createdBy := "u", createdAt := 0, updatedAt := 0
    status := SurveyStatus.active
    questions := [c6Q "1", c6Q "2", c6Q "3", c6Q "4"]
    settings := some {}
    responseCount := 0 }

/-- C6: the renderer pages questions in fixed groups of 3:
`totalPages = ⌈n / 3⌉` (characterised by `n ≤ 3t < n + 3`), page `p`
shows exactly the questions at indices `3p` through `min(3p+3, n) - 1`,
and when `settings.showProgressBar` is set and there is more than one
page the displayed progress is `round(100 * (p+1) / totalPages)`. -/
theorem C6_pagination (survey : Survey) (p : Nat) :
    totalPages survey = (survey.questions.length + 2) / 3 ∧
    survey.questions.length ≤ 3 * totalPages survey ∧
    3 * totalPages survey < survey.questions.length + 3 ∧
    (currentQuestions survey p).length = min 3 (survey.questions.length - p * 3) ∧
    (∀ i (h : i < (currentQuestions survey p).length),
      ∃ hq : p * 3 + i < survey.questions.length,
        (currentQuestions survey p)[i] = survey.questions[p * 3 + i]) ∧
    displayedProgress survey p =
      (if showProgressBarFlag survey ∧ 1 < totalPages survey then
        some ((200 * (p + 1) + totalPages survey) / (2 * totalPages survey))
      else none) := by
  refine ⟨rfl, ?_, ?_, ?_, ?_, ?_⟩
  · unfold totalPages questionsPerPage
    omega
  · unfold totalPages questionsPerPage
    omega
  · unfold currentQuestions questionsPerPage
    simp [List.length_take, List.length_drop]
  · intro i h
    have hlen : p * 3 + i < survey.questions.length := by
      unfold currentQuestions questionsPerPage at h
      simp [List.length_take, List.length_drop] at h
      omega
    refine ⟨hlen, ?_⟩
    unfold currentQuestions questionsPerPage
    rw [List.getElem_take (survey.questions.drop (p * 3)), List.getElem_drop survey.questions]
  · unfold displayedProgress jsRoundPercent
    by_cases h1 : showProgressBarFlag survey
    · by_cases h2 : 1 < totalPages survey
      · simp [h1, h2]
      · simp [h1, h2]
    · simp [h1]

/-- C6 witness: the pagination facts at the four-question fixture on its
second page. -/
theorem C6_witness :
    totalPages c6Survey = (c6Survey.questions.length + 2) / 3 ∧
    c6Survey.questions.length ≤ 3 * totalPages c6Survey ∧
    3 * totalPages c6Survey < c6Survey.questions.length + 3 ∧
    (currentQuestions c6Survey 1).length = min 3 (c6Survey.questions.length - 1 * 3) ∧
    (∀ i (h : i < (currentQuestions c6Survey 1).length),
      ∃ hq : 1 * 3 + i < c6Survey.questions.length,
        (currentQuestions c6Survey 1)[i] = c6Survey.questions[1 * 3 + i]) ∧
    displayedProgress c6Survey 1 =
      (if showProgressBarFlag c6Survey ∧ 1 < totalPages c6Survey then
        some ((200 * (1 + 1) + totalPages c6Survey) / (2 * totalPages c6Survey))
      else none) :=
  C6_pagination c6Survey 1

/- ### C7: rating aggregation -/

/-- `answers.every(...)` check used as a decidable hypothesis: every
collected answer is numeric and lies within the scale range. -/
def allNumsInRange (s : Scale) (answers : List AnswerValue) : Bool :=
  answers.all (fun a =>
    match a with
    | AnswerValue.num n => decide (s.min ≤ n) && decide (n ≤ s.max)
    | _ => false)

lemma sum_map_add (V : List Int) (f g : Int → Nat) :
    (V.map (fun v => f v + g v)).sum = (V.map f).sum + (V.map g).sum := by
  induction V with
  | nil => simp
  | cons v V ih =>
      simp [ih]
      omega

lemma sum_map_indicator_zero (V : List Int) (r : Int) (h : r ∉ V) :
    (V.map (fun v => if r = v then 1 else 0)).sum = 0 := by
  induction V with
  | nil => simp
  | cons v V ih =>
      simp only [List.mem_cons, not_or] at h
      simp [h.1, ih h.2]

lemma sum_map_indicator_one (V : List Int) (r : Int) (hV : V.Nodup) (hr : r ∈ V) :
    (V.map (fun v => if r = v then 1 else 0)).sum = 1 := by
  induction V with
  | nil => simp at hr
  | cons v V ih =>
      rw [List.nodup_cons] at hV
      rcases List.mem_cons.mp hr with h | h
      · subst h
        simp [sum_map_indicator_zero V r hV.1]
      · have hne : r ≠ v := by
          rintro rfl
          exact hV.1 h
        simp [hne, ih hV.2 h]

lemma countRating_nil (v : Int) : countRating [] v = 0 := rfl

lemma countRating_cons (r v : Int) (rs : List Int) :
    countRating (r :: rs) v = (if r = v then 1 else 0) + countRating rs v := by
  unfold countRating
  by_cases h : r = v
  · simp [List.filter_cons, h]
    omega
  · simp [List.filter_cons, h]

lemma sum_counts (V : List Int) (hV : V.Nodup) :
    ∀ rs : List Int, (∀ r ∈ rs, r ∈ V) → (V.map (countRating rs)).sum = rs.length := by
  intro rs
  induction rs with
  | nil =>
      intro _
      have h0 : V.map (countRating []) = V.map (fun _ => 0) :=
        List.map_congr_left (fun v _ => countRating_nil v)
      simp [h0]
  | cons r rs ih =>
      intro h
      have hmap : V.map (countRating (r :: rs))
          = V.map (fun v => (if r = v then 1 else 0) + countRating rs v) :=
        List.map_congr_left (fun v _ => countRating_cons r v rs)
      rw [hmap, sum_map_add, sum_map_indicator_one V r hV (h r (by simp)),
        ih (fun x hx => h x (by simp [hx]))]
      simp
      omega

lemma scaleValues_nodup (s : Scale) : (scaleValues s).Nodup := by
  unfold scaleValues
  refine (List.nodup_range _).map ?_
  intro a b hab
  simpa using hab

lemma mem_scaleValues (s : Scale) (r : Int) (h1 : s.min ≤ r) (h2 : r ≤ s.max) :
    r ∈ scaleValues s := by
  unfold scaleValues
  exact List.mem_map.mpr ⟨(r - s.min).toNat, List.mem_range.mpr (by omega), by omega⟩

lemma ratingsOf_spec (s : Scale) (answers : List AnswerValue)
    (h : allNumsInRange s answers = true) :
    (ratingsOf answers).length = answers.length ∧
    ∀ r ∈ ratingsOf answers, s.min ≤ r ∧ r ≤ s.max := by
  induction answers with
  | nil => simp [ratingsOf]
  | cons a as ih =>
      rw [allNumsInRange, List.all_cons, Bool.and_eq_true] at h
      cases a with
      | str s2 => simp at h
      | arr l => simp at h
      | num n =>
          have hn : s.min ≤ n ∧ n ≤ s.max := by
            have h1 := h.1
            simp at h1
            exact h1
          have hih := ih (by rw [allNumsInRange]; exact h.2)
          constructor
          · simp [ratingsOf, List.filterMap_cons]
            simpa [ratingsOf] using hih.1
          · intro r hr
            simp only [ratingsOf, List.filterMap_cons] at hr
            rcases List.mem_cons.mp hr with h2 | h2
            · subst h2
              exact hn
            · exact hih.2 r (by simpa [ratingsOf] using h2)

/-- Fixture: three responses each answering rating question "q1"
(with 5, 4 and 5). -/
def c7Responses : List AnswerMap :=
  [[("q1", AnswerValue.num 5)], [("q1", AnswerValue.num 4)], [("q1", AnswerValue.num 5)]]

/-- Fixture: the default 1..5 rating scale. -/
def c7Scale : Scale := { min := 1, max := 5 }

/-- C7: for a rating question whose collected answers are all numeric
and within the scale, the frequency distribution covers every integer of
`[min, max]` and its counts sum to the answered count; in particular for
scale 1..5 and answers [5, 4, 5] the average is 4.7 (47 tenths) and the
frequencies sum to 3. -/
theorem C7_rating_aggregation (s : Scale) (answers : List AnswerValue)
    (h : allNumsInRange s answers = true) :
    ((ratingFrequencies s (ratingsOf answers)).map Prod.snd).sum = answers.length ∧
    answersFor c7Responses "q1" = [AnswerValue.num 5, AnswerValue.num 4, AnswerValue.num 5] ∧
    ratingAverageTenths (ratingsOf (answersFor c7Responses "q1")) = some 47 ∧
    ((ratingFrequencies c7Scale (ratingsOf (answersFor c7Responses "q1"))).map Prod.snd).sum
        = 3 := by
  refine ⟨?_, by decide, by decide, by decide⟩
  have hspec := ratingsOf_spec s answers h
  have hmap : (ratingFrequencies s (ratingsOf answers)).map Prod.snd
      = (scaleValues s).map (countRating (ratingsOf answers)) := by
    unfold ratingFrequencies
    rw [List.map_map]
    rfl
  rw [hmap, sum_counts (scaleValues s) (scaleValues_nodup s) (ratingsOf answers)
    (fun r hr => mem_scaleValues s r (hspec.2 r hr).1 (hspec.2 r hr).2)]
  exact hspec.1

/-- C7 witness: the aggregation facts at the concrete [5, 4, 5] input. -/
theorem C7_witness :
    ((ratingFrequencies c7Scale
        (ratingsOf [AnswerValue.num 5, AnswerValue.num 4, AnswerValue.num 5])).map
          Prod.snd).sum
      = [AnswerValue.num 5, AnswerValue.num 4, AnswerValue.num 5].length ∧
    answersFor c7Responses "q1" = [AnswerValue.num 5, AnswerValue.num 4, AnswerValue.num 5] ∧
    ratingAverageTenths (ratingsOf (answersFor c7Responses "q1")) = some 47 ∧
    ((ratingFrequencies c7Scale (ratingsOf (answersFor c7Responses "q1"))).map Prod.snd).sum
        = 3 :=
  C7_rating_aggregation c7Scale [AnswerValue.num 5, AnswerValue.num 4, AnswerValue.num 5]
    (by decide)

/- ### C9: the response-count increment -/

lemma find?_updateFirst (l : List Survey) (sid : String) (f : Survey → Survey)
    (hf : ∀ s, (f s).id = s.id) :
    (updateFirst l sid f).find? (fun s => s.id = sid)
      = (l.find? (fun s => s.id = sid)).map f := by
  induction l with
  | nil => simp [updateFirst]
  | cons s rest ih =>
      by_cases h : s.id = sid
      · simp [updateFirst, h, List.find?_cons, hf s]
      · simp [updateFirst, h, List.find?_cons, ih]

lemma saveResponse_count_step (st : LocalStore) (pr : PendingResponse) (fid : String)
    (now : Int) (s : Survey)
    (hs : st.surveys.find? (fun s2 => s2.id = pr.surveyId) = some s) :
    (saveResponse st pr fid now).1.surveys.find? (fun s2 => s2.id = pr.surveyId)
      = some { s with responseCount := s.responseCount + 1, updatedAt := now } := by
  unfold saveResponse incrementResponseCount
  simp only [hs]
  rw [find?_updateFirst st.surveys pr.surveyId
    (fun s0 => { s0 with responseCount := s.responseCount + 1, updatedAt := now })
    (fun s0 => rfl), hs]
  rfl

lemma saveResponsesN_find (ids : Nat → String) (times : Nat → Int) (st : LocalStore)
    (pr : PendingResponse) (s : Survey)
    (hs : st.surveys.find? (fun s2 => s2.id = pr.surveyId) = some s) (k : Nat) :
    ∃ s2, (saveResponsesN ids times st pr k).surveys.find? (fun s3 => s3.id = pr.surveyId)
        = some s2 ∧ s2.responseCount = s.responseCount + (k : Int) := by
  induction k with
  | zero =>
      exact ⟨s, by simpa [saveResponsesN] using hs, by simp⟩
  | succ k ih =>
      obtain ⟨s2, h2, hc⟩ := ih
      refine ⟨{ s2 with responseCount := s2.responseCount + 1, updatedAt := times k }, ?_, ?_⟩
      · exact saveResponse_count_step (saveResponsesN ids times st pr k) pr (ids k) (times k) s2 h2
      · simp [hc]
        omega

/-- C9: the claim's "on every backend" is false — the renderer's
Firestore submit path stores the response without touching the survey
document: after a successful submit against a survey with
`responseCount = 0`, one response exists but the counter still reads 0. -/
theorem C9_counterexample :
    (firestoreSubmit c9FsState c5Survey [] 10 0 "ua").responses.length = 1 ∧
    responseCountOf (firestoreSubmit c9FsState c5Survey [] 10 0 "ua").surveys "s1" = some 0 ∧
    (0 : Int) ≠ 1 := by
  decide

/-- C9 (amended): through the local-storage backend each successful
`saveResponse` increments the owning survey's `responseCount` exactly
once, so `k` successive saves raise it from `c` to `c + k`; the
Firestore submit path in the renderer never writes a survey document,
leaving `responseCount` unchanged there. -/
theorem C9_responseCount_increment (ids : Nat → String) (times : Nat → Int)
    (st : LocalStore) (pr : PendingResponse) (s : Survey)
    (hs : st.surveys.find? (fun s2 => s2.id = pr.surveyId) = some s) (k : Nat) :
    responseCountOf st.surveys pr.surveyId = some s.responseCount ∧
    responseCountOf (saveResponsesN ids times st pr k).surveys pr.surveyId
      = some (s.responseCount + (k : Int)) ∧
    ∀ (fs : FirestoreState) (survey : Survey) (rs : AnswerMap) (now startTime : Int)
        (ua : String),
      (firestoreSubmit fs survey rs now startTime ua).surveys = fs.surveys := by
  obtain ⟨s2, h2, hc⟩ := saveResponsesN_find ids times st pr s hs k
  refine ⟨?_, ?_, ?_⟩
  · unfold responseCountOf
    rw [hs]
    rfl
  · unfold responseCountOf
    rw [h2]
    simp [hc]
  · intro fs survey rs now startTime ua
    unfold firestoreSubmit
    cases handleSubmit survey rs now startTime ua <;> rfl

/-- Fixture: a local store holding the one survey with count 0. -/
def c9Store : LocalStore := { surveys := [c5Survey], responses := [] }

/-- Fixture: a pending response for survey "s1". -/
def c9Pending : PendingResponse :=
  { surveyId := "s1", responses := [], isComplete := true, completionTime := some 5 }

/-- C9 witness: three saves through the local adapter raise the counter
from 0 to 3, and the Firestore path leaves survey documents unchanged. -/
theorem C9_witness :
    responseCountOf c9Store.surveys c9Pending.surveyId = some c5Survey.responseCount ∧
    responseCountOf (saveResponsesN (fun n => toString n) (fun n => (n : Int)) c9Store
        c9Pending 3).surveys c9Pending.surveyId
      = some (c5Survey.responseCount + ((3 : Nat) : Int)) ∧
    ∀ (fs : FirestoreState) (survey : Survey) (rs : AnswerMap) (now startTime : Int)
        (ua : String),
      (firestoreSubmit fs survey rs now startTime ua).surveys = fs.surveys :=
  C9_responseCount_increment (fun n => toString n) (fun n => (n : Int)) c9Store c9Pending
    c5Survey (by decide) 3

end SurveyMaster
